import Mathlib

/-
Verification of the kent-core sensor service against its specification.

The development shallowly embeds the relevant parts of the Python sources:
  - sensor_service/config.py   (constants)
  - sensor_service/utils.py    (is_data_stale, load_current_data, save_file_atomic)
  - sensor_service/reader.py   (LiDARReader.read_data post-processing,
                                LiDARReader.format_csv, SensorReader.save_data)
  - sensor_service/listener.py (SensorDataHandler.handle, send_data, send_error)

Python floats are modelled as rationals; the decimal text form written by
str() on a float is modelled by the PyFloat record (sign, integer part,
fractional digits) together with its exact rational value.  File system
effects are modelled by explicit state passing over the three-artifact
exchange directory, with the success of each atomic write supplied by an
environment record.  The clock read performed by time.time() is passed as
an explicit argument wherever the source calls it.
-/

/-! Constants from sensor_service/config.py. -/

def MAX_DATA_AGE : ℚ := 5

def LIDAR_MIN_DISTANCE : Int := 30

def LIDAR_MAX_DISTANCE : Int := 4000

def PROTOCOL_GET_DATA_CMD : String := "GET_DATA"

def PROTOCOL_END_MARKER : String := "END"

/-- Model of utils.is_data_stale.  The source computes
time.time() - timestamp > max_age; the clock value returned by
time.time() is the explicit first argument here. -/
def is_data_stale (now timestamp max_age : ℚ) : Bool :=
  decide ((now - timestamp) > max_age)

/-! Characters and decimal text.  These model the Python builtins used by
the sources: str.strip, float() parsing, and the decimal rendering str()
applies to floats. -/

/-- Whitespace characters removed by Python str.strip(). -/
def isPySpace (c : Char) : Bool :=
  c = ' ' || c = '\t' || c = '\n' || c = '\r' || c = '\x0b' || c = '\x0c'

/-- Model of Python str.strip(): remove leading and trailing whitespace. -/
def pyStrip (l : List Char) : List Char :=
  ((l.dropWhile isPySpace).reverse.dropWhile isPySpace).reverse

/-- The numeric value of a decimal digit character, if it is one. -/
def digitVal (c : Char) : Option Nat :=
  if '0' ≤ c && c ≤ '9' then some (c.toNat - 48) else none

/-- Parse every character of the list as a decimal digit. -/
def digitsOfChars : List Char → Option (List Nat)
  | [] => some []
  | c :: cs =>
    match digitVal c, digitsOfChars cs with
    | some d, some ds => some (d :: ds)
    | _, _ => none

/-- Value of a most-significant-first digit list. -/
def natOfDigits (l : List Nat) : Nat :=
  l.foldl (fun a d => a * 10 + d) 0

/-- The character for a decimal digit. -/
def digitChar (d : Nat) : Char := Char.ofNat (48 + d)

/-- Render a digit list as characters. -/
def renderDigits (ds : List Nat) : List Char := ds.map digitChar

/-- Most-significant-first decimal digits of a natural number (empty for 0). -/
def natDigits (n : Nat) : List Nat := (Nat.digits 10 n).reverse

/-- Decimal rendering of a natural number. -/
def renderNat (n : Nat) : List Char :=
  if n = 0 then ['0'] else renderDigits (natDigits n)

/-- Model of Python float() on the stripped text of timestamp.txt,
restricted to the plain decimal forms produced by str() on finite floats:
an optional minus sign, an integer part, and an optional fractional part
separated by a single dot.  Anything else fails, as float() raises. -/
def pyFloatNN (l : List Char) : Option ℚ :=
  let intPart := l.takeWhile (· != '.')
  match l.dropWhile (· != '.') with
  | [] =>
    if intPart.isEmpty then none
    else (digitsOfChars intPart).map (fun ds => (natOfDigits ds : ℚ))
  | _ :: frac =>
    if intPart.isEmpty && frac.isEmpty then none
    else if '.' ∈ frac then none
    else
      match digitsOfChars intPart, digitsOfChars frac with
      | some di, some df =>
        some ((natOfDigits di : ℚ) + (natOfDigits df : ℚ) / (10 : ℚ) ^ frac.length)
      | _, _ => none

/-- Model of Python float() including the sign. -/
def pyFloat (l : List Char) : Option ℚ :=
  if l.head? = some '-' then (pyFloatNN l.tail).map (fun q => -q) else pyFloatNN l

/-- A Python float as it appears in decimal text: sign, integer part and
fractional digits.  Its exact rational value is PyFloat.toRat and the text
written for it by str() is PyFloat.render. -/
structure PyFloat where
  neg : Bool
  intPart : Nat
  fracDigits : List Nat

/-- The decimal text str() produces for the float. -/
def PyFloat.render (x : PyFloat) : String :=
  ⟨(if x.neg then ['-'] else []) ++ renderNat x.intPart ++ '.' :: renderDigits x.fracDigits⟩

/-- The exact rational value of the float. -/
def PyFloat.toRat (x : PyFloat) : ℚ :=
  let m : ℚ := (x.intPart : ℚ) + (natOfDigits x.fracDigits : ℚ) / (10 : ℚ) ^ x.fracDigits.length
  if x.neg then -m else m

/-! The exchange directory.  The three artifacts of the Exchange Store
are the contents of timestamp.txt, current.jpg and current.csv; a missing
or unreadable file is none. -/

structure FS where
  tsFile : Option String
  imgFile : Option (List Nat)
  csvFile : Option String

/-- Model of utils.load_current_data: read timestamp.txt and parse
float(contents.strip()), then read current.jpg, then current.csv.  The
try/except around the body returns None on the first failing step. -/
def load_current_data (fs : FS) : Option (ℚ × List Nat × String) :=
  match fs.tsFile with
  | none => none
  | some s =>
    match pyFloat (pyStrip s.data) with
    | none => none
    | some timestamp =>
      match fs.imgFile with
      | none => none
      | some image_data =>
        match fs.csvFile with
        | none => none
        | some csv_data => some (timestamp, image_data, csv_data)

/-! The depth matrix and its post-processing, from LiDARReader.read_data. -/

abbrev Matrix8 := Fin 8 → Fin 8 → Int

/-- Point update of one cell of the matrix, modelling the in-place
assignment processed_distances[row, col] = -1. -/
def matUpdate (m : Matrix8) (r c : Fin 8) (v : Int) : Matrix8 :=
  fun r' c' => if r' = r ∧ c' = c then v else m r' c'

/-- The row-major traversal of the nested for row / for col loops. -/
def allCells : List (Fin 8 × Fin 8) :=
  (List.finRange 8).flatMap fun r => (List.finRange 8).map fun c => (r, c)

/-- One iteration of the filtering loop body in LiDARReader.read_data:
the cell of the copy is overwritten with -1 exactly when the raw value
read from distances fails the validity test. -/
def procStep (distances : Matrix8) (acc : Matrix8) (p : Fin 8 × Fin 8) : Matrix8 :=
  if distances p.1 p.2 ≤ LIDAR_MIN_DISTANCE ∨ distances p.1 p.2 ≥ LIDAR_MAX_DISTANCE ∨
      distances p.1 p.2 = 0 then
    matUpdate acc p.1 p.2 (-1)
  else acc

/-- The post-processing stage of LiDARReader.read_data: start from a copy
of the raw matrix and run the filtering loop over all 64 cells. -/
def read_data (distances : Matrix8) : Matrix8 :=
  allCells.foldl (procStep distances) distances

/-! CSV documents, from LiDARReader.format_csv and SensorReader.save_data. -/

/-- Model of LiDARReader.format_csv.  The argument tsIso stands for the
text datetime.fromtimestamp(timestamp).isoformat() interpolated into the
second comment line. -/
def format_csv (distances : Matrix8) (tsIso : String) : String :=
  String.intercalate "\n"
    (["# VL53L5CX 8x8 Distance Measurement",
      "# Timestamp: " ++ tsIso,
      "# Min valid distance: " ++ toString LIDAR_MIN_DISTANCE ++ " mm",
      "# Max valid distance: " ++ toString LIDAR_MAX_DISTANCE ++ " mm",
      "# Invalid points marked as: -1",
      ""] ++
     [String.intercalate ","
        ("Row\\Col" :: ((List.finRange 8).map fun c => "Col_" ++ toString (c : ℕ)))] ++
     ((List.finRange 8).map fun r =>
        String.intercalate ","
          (("Row_" ++ toString (r : ℕ)) ::
            ((List.finRange 8).map fun c => toString (distances r c)))))

/-- The placeholder document SensorReader.save_data writes when the LiDAR
read produced no matrix. -/
def empty_csv (tsIso : String) : String :=
  "# VL53L5CX 8x8 Distance Measurement\n# Timestamp: " ++ tsIso ++
    "\n# Error: LiDAR sensor not available\n"

/-- The CSV document save_data persists for the cycle. -/
def csv_content (lidar : Option Matrix8) (tsIso : String) : String :=
  match lidar with
  | some m => format_csv m tsIso
  | none => empty_csv tsIso

/-! Atomic writes and save_data, from utils.save_file_atomic and
SensorReader.save_data. -/

/-- Whether each of the three atomic writes of a cycle succeeds; this is
the nondeterminism of the file system in utils.save_file_atomic. -/
structure WriteEnv where
  tsOk : Bool
  csvOk : Bool
  imgOk : Bool

/-- Model of utils.save_file_atomic on one artifact slot: on success the
target is atomically replaced and True is returned; on failure the target
keeps its previous content (the temporary file is discarded) and False is
returned. -/
def save_file_atomic {α : Type} (ok : Bool) (data : α) (cur : Option α) : Option α × Bool :=
  if ok then (some data, true) else (cur, false)

/-- Whether save_data attempts the image write: the source guards it with
the truthiness test "if image_data:", which skips both None and empty
bytes. -/
def img_attempted (img : Option (List Nat)) : Bool :=
  match img with
  | some b => !b.isEmpty
  | none => false

/-- Model of SensorReader.save_data.  The timestamp artifact receives
str(timestamp); the CSV artifact receives the formatted matrix document,
or the placeholder when lidar is none; the image artifact is written only
when image bytes are present and nonempty.  The returned Bool is the
aggregate success flag. -/
def save_data (env : WriteEnv) (ts : PyFloat) (tsIso : String)
    (lidar : Option Matrix8) (img : Option (List Nat)) (fs : FS) : FS × Bool :=
  let tsr := save_file_atomic env.tsOk (PyFloat.render ts) fs.tsFile
  let csvr := save_file_atomic env.csvOk (csv_content lidar tsIso) fs.csvFile
  let imgr :=
    match img with
    | some b => if b.isEmpty then (fs.imgFile, true) else save_file_atomic env.imgOk b fs.imgFile
    | none => (fs.imgFile, true)
  (⟨tsr.1, imgr.1, csvr.1⟩, tsr.2 && csvr.2 && imgr.2)

/-! The request handler, from SensorDataHandler.handle. -/

/-- The single outcome the handler sends on a connection before closing
it: either one error line or the framed success payload. -/
inductive Response where
  | error (msg : String)
  | success (timestamp : ℚ) (image_data : List Nat) (csv_data : String)
deriving DecidableEq

/-- Model of SensorDataHandler.handle: strip the received request line,
compare it with the command token, and only then read the Exchange Store;
absent data, stale data and fresh data give the three remaining outcomes.
The clock value used by the staleness test is the explicit argument now. -/
def handle (req : String) (now : ℚ) (fs : FS) : Response :=
  let request_data := pyStrip req.data
  if request_data ≠ PROTOCOL_GET_DATA_CMD.data then Response.error "ERROR: Invalid command"
  else
    match load_current_data fs with
    | none => Response.error "ERROR: No data available"
    | some (timestamp, image_data, csv_data) =>
      if is_data_stale now timestamp MAX_DATA_AGE then
        Response.error "ERROR: No fresh data available"
      else Response.success timestamp image_data csv_data

/-! The wire format of a success response, from SensorDataHandler.send_data. -/

/-- UTF-8 encoding of one character, as bytes (values below 256). -/
def utf8EncodeChar (c : Char) : List Nat :=
  let n := c.toNat
  if n < 128 then [n]
  else if n < 2048 then [192 + n / 64, 128 + n % 64]
  else if n < 65536 then [224 + n / 4096, 128 + (n / 64) % 64, 128 + n % 64]
  else [240 + n / 262144, 128 + (n / 4096) % 64, 128 + (n / 64) % 64, 128 + n % 64]

/-- UTF-8 encoding of a string, modelling str.encode("utf-8"). -/
def utf8Encode (s : String) : List Nat := s.data.flatMap utf8EncodeChar

/-- Model of SensorDataHandler.send_data: the exact byte sequence pushed
through the successive sendall calls.  tsRepr stands for str(timestamp).
Note the source writes len(csv_data) — the number of characters of the
Python str — into the CSV_SIZE header, while the payload that follows is
csv_data.encode("utf-8"). -/
def send_data (tsRepr : String) (image_data : List Nat) (csv_data : String) : List Nat :=
  utf8Encode ("TIMESTAMP:" ++ tsRepr ++ "\n" ++ "IMAGE_SIZE:" ++ toString image_data.length ++ "\n")
    ++ image_data
    ++ utf8Encode ("CSV_SIZE:" ++ toString csv_data.length ++ "\n")
    ++ utf8Encode csv_data
    ++ utf8Encode (PROTOCOL_END_MARKER ++ "\n")

/-- Modelled from the spec: the success response as the specification
describes it, with each size header equal to the byte count of the
payload that follows it; in particular the CSV_SIZE header carries the
byte length of the UTF-8 encoding of the csv text. -/
def send_data_claimed (tsRepr : String) (image_data : List Nat) (csv_data : String) : List Nat :=
  utf8Encode ("TIMESTAMP:" ++ tsRepr ++ "\n")
    ++ utf8Encode ("IMAGE_SIZE:" ++ toString image_data.length ++ "\n")
    ++ image_data
    ++ utf8Encode ("CSV_SIZE:" ++ toString (utf8Encode csv_data).length ++ "\n")
    ++ utf8Encode csv_data
    ++ utf8Encode "END\n"

/-! The documented CSV layout, modelled from the spec for comparison with
the documents the code writes. -/

/-- Split a character list at every occurrence of the separator. -/
def splitOnChar (sep : Char) : List Char → List (List Char)
  | [] => [[]]
  | c :: cs =>
    if c = sep then [] :: splitOnChar sep cs
    else
      match splitOnChar sep cs with
      | [] => [[c]]
      | h :: t => (c :: h) :: t

/-- Whether the characters form an integer literal with no decimal point:
an optional minus sign followed by at least one digit. -/
def intLitChars (l : List Char) : Bool :=
  match l with
  | '-' :: ds => !ds.isEmpty && ds.all (fun c => '0' ≤ c && c ≤ '9')
  | ds => !ds.isEmpty && ds.all (fun c => '0' ≤ c && c ≤ '9')

/-- Modelled from the spec: the documented header row of current.csv. -/
def spec_header_row : List Char :=
  "Row\\Col,Col_0,Col_1,Col_2,Col_3,Col_4,Col_5,Col_6,Col_7".data

/-- Modelled from the spec: a documented data row of current.csv, a row
label followed by 8 integers rendered with no decimal point. -/
def spec_data_row (n : Nat) (l : List Char) : Bool :=
  match splitOnChar ',' l with
  | label :: cells =>
    label = ("Row_" ++ toString n).data && cells.length = 8 && cells.all intLitChars
  | [] => false

/-- Modelled from the spec: the documented layout of current.csv —
comment lines prefixed with the hash mark, a blank separator line, the
header row, then exactly 8 data rows. -/
def spec_matrix_layout (doc : String) : Bool :=
  let lines := splitOnChar '\n' doc.data
  match lines.dropWhile (fun l => l.head? == some '#') with
  | [] :: hdr :: rest =>
    hdr = spec_header_row && rest.length = 8 &&
      ((List.range 8).all fun i => spec_data_row i (rest.getD i []))
  | _ => false

/-! Concrete sample values used by witnesses and counterexamples. -/

def fs0 : FS := ⟨none, none, none⟩

def fs1 : FS := ⟨some "3", some [7], some "x"⟩

def ts0 : PyFloat := ⟨false, 3, [2, 5]⟩

def ts1 : PyFloat := ⟨false, 3, [5]⟩

def mat0 : Matrix8 := fun _ _ => 100

def envAll : WriteEnv := ⟨true, true, true⟩

def iso0 : String := "2024-01-01T12:00:00"

/-! Helper lemmas. -/

theorem string_data_append (s t : String) : (s ++ t).data = s.data ++ t.data := by
  cases s; cases t; rfl

theorem qfact_sub_zero_five : (5 : ℚ) - 0 = 5 := by norm_num

theorem qfact_six_gt : (6 : ℚ) - 0 > 5 := by norm_num

theorem mem_allCells (r c : Fin 8) : (r, c) ∈ allCells := by
  simp [allCells]

theorem procStep_apply (distances acc : Matrix8) (p : Fin 8 × Fin 8) (r c : Fin 8) :
    procStep distances acc p r c =
      if (r, c) = p ∧ (distances r c ≤ LIDAR_MIN_DISTANCE ∨ distances r c ≥ LIDAR_MAX_DISTANCE ∨
          distances r c = 0) then -1
      else acc r c := by
  by_cases hp : (r, c) = p
  · subst hp
    by_cases hC : distances r c ≤ LIDAR_MIN_DISTANCE ∨ distances r c ≥ LIDAR_MAX_DISTANCE ∨
        distances r c = 0
    · simp [procStep, matUpdate, hC]
    · simp [procStep, matUpdate, hC]
  · have hp' : ¬(r = p.1 ∧ c = p.2) := by
      intro h
      exact hp (Prod.ext h.1 h.2)
    by_cases hC : distances p.1 p.2 ≤ LIDAR_MIN_DISTANCE ∨ distances p.1 p.2 ≥ LIDAR_MAX_DISTANCE ∨
        distances p.1 p.2 = 0
    · simp [procStep, matUpdate, hC, hp, hp']
    · simp [procStep, matUpdate, hC, hp]

theorem procStep_foldl_apply (distances : Matrix8) (l : List (Fin 8 × Fin 8)) (acc : Matrix8)
    (r c : Fin 8) :
    (l.foldl (procStep distances) acc) r c =
      if (r, c) ∈ l ∧ (distances r c ≤ LIDAR_MIN_DISTANCE ∨ distances r c ≥ LIDAR_MAX_DISTANCE ∨
          distances r c = 0) then -1
      else acc r c := by
  induction l generalizing acc with
  | nil => simp
  | cons p l ih =>
    rw [List.foldl_cons, ih, procStep_apply]
    by_cases hC : distances r c ≤ LIDAR_MIN_DISTANCE ∨ distances r c ≥ LIDAR_MAX_DISTANCE ∨
        distances r c = 0
    · by_cases hmem : (r, c) ∈ l
      · simp [hC, hmem]
      · by_cases hp : (r, c) = p
        · simp [hC, hmem, hp]
        · simp [hC, hmem, hp]
    · simp [hC]

theorem read_data_apply (distances : Matrix8) (r c : Fin 8) :
    read_data distances r c =
      if distances r c ≤ LIDAR_MIN_DISTANCE ∨ distances r c ≥ LIDAR_MAX_DISTANCE ∨
          distances r c = 0 then -1
      else distances r c := by
  rw [read_data, procStep_foldl_apply]
  simp [mem_allCells]

/-! Claim theorems. -/

/-- C1: for all clock values now, timestamps t and max ages a,
is_data_stale returns true exactly when now - t > a, and at the boundary
now - t = a it returns false (not stale). -/
theorem c1_is_stale_iff (now t a : ℚ) :
    (is_data_stale now t a = true ↔ now - t > a) ∧
      (now - t = a → is_data_stale now t a = false) := by
  constructor
  · simp [is_data_stale]
  · intro h
    simp [is_data_stale, h]

/-- C1 witness: at clock 5, timestamp 0 and max age 5 the boundary case is
not stale, and at clock 6 the same data is stale. -/
theorem c1_is_stale_iff_w :
    is_data_stale 5 0 5 = false ∧ is_data_stale 6 0 5 = true :=
  ⟨(c1_is_stale_iff 5 0 5).2 qfact_sub_zero_five, (c1_is_stale_iff 6 0 5).1.mpr qfact_six_gt⟩

/-- C9 counterexample: with timestamp 0 and max age 5 the result differs
between clock values 1 and 10, so is_data_stale is not a function of its
timestamp and max age arguments alone: the time.time() call inside makes
the result depend on when it is called. -/
theorem c9_not_pure_cex :
    ¬ ∀ (now now' : ℚ), is_data_stale now 0 5 = is_data_stale now' 0 5 := by
  intro h
  have h1 := h 1 10
  have e1 : is_data_stale 1 0 5 = false := by
    simp only [is_data_stale, decide_eq_false_iff_not]
    norm_num
  have e2 : is_data_stale 10 0 5 = true := by
    simp only [is_data_stale, decide_eq_true_eq]
    norm_num
  rw [e1, e2] at h1
  exact Bool.noConfusion h1

/-- C9 amended: is_data_stale reads the current clock, so it is not a pure
function of timestamp and max_age alone; it is a pure function of the age
now - timestamp together with max_age: shifting the clock and the
timestamp together never changes the result. -/
theorem c9_age_invariant (now t a d : ℚ) :
    is_data_stale (now + d) (t + d) a = is_data_stale now t a := by
  have h : now + d - (t + d) = now - t := by ring
  simp [is_data_stale, h]

/-- C2: the depth-matrix post-processing is a per-cell position-preserving
transform: each processed cell is -1 exactly when the raw value is 0, at
most the minimum valid distance, or at least the maximum valid distance;
otherwise it is the unchanged raw value; and the processed value of a cell
depends only on the raw value of that same cell. -/
theorem c2_depth_transform (distances : Matrix8) (r c : Fin 8) :
    (read_data distances r c = -1 ↔
      (distances r c = 0 ∨ distances r c ≤ LIDAR_MIN_DISTANCE ∨
        distances r c ≥ LIDAR_MAX_DISTANCE))
    ∧ (¬(distances r c = 0 ∨ distances r c ≤ LIDAR_MIN_DISTANCE ∨
          distances r c ≥ LIDAR_MAX_DISTANCE) →
        read_data distances r c = distances r c)
    ∧ (∀ distances' : Matrix8, distances' r c = distances r c →
        read_data distances' r c = read_data distances r c) := by
  refine ⟨?_, ?_, ?_⟩
  · rw [read_data_apply]
    by_cases h : distances r c ≤ LIDAR_MIN_DISTANCE ∨ distances r c ≥ LIDAR_MAX_DISTANCE ∨
        distances r c = 0
    · rw [if_pos h]
      simp only [LIDAR_MIN_DISTANCE, LIDAR_MAX_DISTANCE] at h ⊢
      constructor
      · intro _
        omega
      · intro _
        trivial
    · rw [if_neg h]
      simp only [LIDAR_MIN_DISTANCE, LIDAR_MAX_DISTANCE] at h ⊢
      omega
  · intro h
    rw [read_data_apply]
    have h' : ¬(distances r c ≤ LIDAR_MIN_DISTANCE ∨ distances r c ≥ LIDAR_MAX_DISTANCE ∨
        distances r c = 0) := by
      simp only [LIDAR_MIN_DISTANCE, LIDAR_MAX_DISTANCE] at h ⊢
      omega
    rw [if_neg h']
  · intro distances' h
    rw [read_data_apply, read_data_apply, h]

/-- C2 witness: a cell with raw value 100 is valid and passes through
unchanged. -/
theorem c2_depth_transform_w :
    ¬((100 : Int) = 0 ∨ (100 : Int) ≤ LIDAR_MIN_DISTANCE ∨ (100 : Int) ≥ LIDAR_MAX_DISTANCE) ∧
      read_data mat0 0 0 = 100 :=
  ⟨by decide, (c2_depth_transform mat0 0 0).2.1 (by decide)⟩

/-- C3: the handler checks the request line first and reads the Exchange
Store only on a match; the four outcomes in order are the invalid-command
error (independent of the store state), the no-data error, the staleness
error, and the success response. -/
theorem c3_handler_order (req : String) (now : ℚ) (fs fs' : FS) :
    (pyStrip req.data ≠ PROTOCOL_GET_DATA_CMD.data →
        handle req now fs = Response.error "ERROR: Invalid command" ∧
          handle req now fs = handle req now fs')
    ∧ (pyStrip req.data = PROTOCOL_GET_DATA_CMD.data → load_current_data fs = none →
        handle req now fs = Response.error "ERROR: No data available")
    ∧ (∀ t img csv, pyStrip req.data = PROTOCOL_GET_DATA_CMD.data →
        load_current_data fs = some (t, img, csv) → is_data_stale now t MAX_DATA_AGE = true →
        handle req now fs = Response.error "ERROR: No fresh data available")
    ∧ (∀ t img csv, pyStrip req.data = PROTOCOL_GET_DATA_CMD.data →
        load_current_data fs = some (t, img, csv) → is_data_stale now t MAX_DATA_AGE = false →
        handle req now fs = Response.success t img csv) := by
  refine ⟨fun h => ⟨?_, ?_⟩, fun h hl => ?_, fun t img csv h hl hs => ?_,
    fun t img csv h hl hs => ?_⟩
  · simp [handle, h]
  · simp [handle, h]
  · simp [handle, h, hl]
  · simp [handle, h, hl, hs]
  · simp [handle, h, hl, hs]

/-- C3 witness: the malformed request line FOO gets the invalid-command
error on an empty store, and a valid request on an empty store gets the
no-data error. -/
theorem c3_handler_order_w :
    handle "FOO\n" 0 fs0 = Response.error "ERROR: Invalid command" ∧
      handle "GET_DATA" 0 fs0 = Response.error "ERROR: No data available" :=
  ⟨((c3_handler_order "FOO\n" 0 fs0 fs0).1 (by decide)).1,
   (c3_handler_order "GET_DATA" 0 fs0 fs0).2.1 (by decide) rfl⟩

/-- C5: load_current_data returns a triple exactly when all three artifact
files are present and the timestamp parses; if any artifact is missing or
the timestamp is unparsable it returns none, never a partial result. -/
theorem c5_load_all_or_nothing (fs : FS) (t : ℚ) (img : List Nat) (csv : String) :
    (load_current_data fs = some (t, img, csv) ↔
      (∃ s, fs.tsFile = some s ∧ pyFloat (pyStrip s.data) = some t) ∧
        fs.imgFile = some img ∧ fs.csvFile = some csv)
    ∧ ((fs.tsFile = none ∨ (∃ s, fs.tsFile = some s ∧ pyFloat (pyStrip s.data) = none) ∨
          fs.imgFile = none ∨ fs.csvFile = none) →
        load_current_data fs = none) := by
  obtain ⟨ots, oimg, ocsv⟩ := fs
  constructor
  · cases ots with
    | none => simp [load_current_data]
    | some s =>
      cases hpf : pyFloat (pyStrip s.data) with
      | none => cases oimg <;> cases ocsv <;> simp [load_current_data, hpf]
      | some q =>
        cases oimg with
        | none => cases ocsv <;> simp [load_current_data, hpf]
        | some img0 =>
          cases ocsv with
          | none => simp [load_current_data, hpf]
          | some csv0 =>
            simp only [load_current_data, hpf, Option.some.injEq, Prod.mk.injEq]
            constructor
            · rintro ⟨h1, h2, h3⟩
              exact ⟨⟨s, rfl, by rw [hpf, h1]⟩, by rw [h2], by rw [h3]⟩
            · rintro ⟨⟨s', hs', hps'⟩, h2, h3⟩
              have hss : s = s' := hs'
              subst hss
              rw [hpf] at hps'
              have hqt : q = t := by
                injection hps'
              exact ⟨hqt, h2, h3⟩
  · rintro (h | ⟨s, hs, hn⟩ | h | h)
    · subst h
      simp [load_current_data]
    · subst hs
      simp [load_current_data, hn]
    · subst h
      cases ots with
      | none => simp [load_current_data]
      | some s => cases hpf : pyFloat (pyStrip s.data) <;> simp [load_current_data, hpf]
    · subst h
      cases ots with
      | none => simp [load_current_data]
      | some s =>
        cases hpf : pyFloat (pyStrip s.data) with
        | none => simp [load_current_data, hpf]
        | some q => cases oimg <;> simp [load_current_data, hpf]

/-- C5 witness: with all three artifacts present and timestamp text 3 the
load returns the full triple, and with no timestamp artifact it returns
none. -/
theorem c5_load_all_or_nothing_w :
    load_current_data fs1 = some (3, [7], "x") ∧ load_current_data fs0 = none :=
  ⟨(c5_load_all_or_nothing fs1 3 [7] "x").1.mpr ⟨⟨"3", rfl, rfl⟩, rfl, rfl⟩,
   (c5_load_all_or_nothing fs0 0 [] "").2 (Or.inl rfl)⟩

/-- C8: within one save, each artifact write is attempted independently of
the success of the others — each resulting artifact depends only on its
own write outcome — and the aggregate flag is true exactly when the
timestamp write, the CSV write, and the image write (when attempted)
all succeeded. -/
theorem c8_save_independent (env : WriteEnv) (ts : PyFloat) (tsIso : String)
    (lidar : Option Matrix8) (img : Option (List Nat)) (fs : FS) :
    (save_data env ts tsIso lidar img fs).1.tsFile =
      (if env.tsOk = true then some (PyFloat.render ts) else fs.tsFile)
    ∧ (save_data env ts tsIso lidar img fs).1.csvFile =
      (if env.csvOk = true then some (csv_content lidar tsIso) else fs.csvFile)
    ∧ (save_data env ts tsIso lidar img fs).1.imgFile =
      (if (img_attempted img && env.imgOk) = true then some (img.getD []) else fs.imgFile)
    ∧ (save_data env ts tsIso lidar img fs).2 =
      (env.tsOk && env.csvOk && (!img_attempted img || env.imgOk)) := by
  obtain ⟨bts, bcsv, bimg⟩ := env
  cases img with
  | none =>
    cases bts <;> cases bcsv <;> cases bimg <;>
      simp [save_data, save_file_atomic, img_attempted]
  | some b =>
    cases b with
    | nil =>
      cases bts <;> cases bcsv <;> cases bimg <;>
        simp [save_data, save_file_atomic, img_attempted]
    | cons x xs =>
      cases bts <;> cases bcsv <;> cases bimg <;>
        simp [save_data, save_file_atomic, img_attempted]

/-- C10: with no image data for the cycle, save_data leaves the previously
published image artifact untouched while, when the other writes succeed,
still writing a fresh timestamp and CSV and reporting aggregate success —
so a fresh timestamp can sit beside an arbitrarily old image. -/
theorem c10_save_skips_missing_image (env : WriteEnv) (ts : PyFloat) (tsIso : String)
    (lidar : Option Matrix8) (fs : FS) :
    (save_data env ts tsIso lidar none fs).1.imgFile = fs.imgFile
    ∧ (save_data envAll ts tsIso lidar none fs).2 = true
    ∧ (save_data envAll ts tsIso lidar none fs).1.tsFile = some (PyFloat.render ts)
    ∧ (save_data envAll ts tsIso lidar none fs).1.csvFile = some (csv_content lidar tsIso) := by
  refine ⟨?_, ?_, ?_, ?_⟩ <;> simp [save_data, save_file_atomic, envAll]

/-! Lemmas for the wire format (claim C4). -/

theorem utf8Encode_append (s t : String) :
    utf8Encode (s ++ t) = utf8Encode s ++ utf8Encode t := by
  simp [utf8Encode, string_data_append]

theorem utf8_len_ascii (l : List Char) (h : ∀ c ∈ l, c.toNat < 128) :
    (l.flatMap utf8EncodeChar).length = l.length := by
  induction l with
  | nil => rfl
  | cons c cs ih =>
    have hc : c.toNat < 128 := h c (List.mem_cons_self c cs)
    have ih' := ih (fun x hx => h x (List.mem_cons_of_mem c hx))
    simp [utf8EncodeChar, hc, ih']

/-- C4 counterexample: the source writes the character count of the csv
text into the CSV_SIZE header, not the byte length of its UTF-8 encoding;
for the one-character text with an accented letter the two differ (1
versus 2 bytes), so the response differs from the one the claim
describes. -/
theorem c4_csv_size_cex :
    send_data "1.0" [] "é" ≠ send_data_claimed "1.0" [] "é" ∧
      "é".length = 1 ∧ (utf8Encode "é").length = 2 := by
  refine ⟨by decide, by decide, by decide⟩

/-- C4 amended: the success response is exactly the claimed concatenation
of the TIMESTAMP line, the IMAGE_SIZE line carrying the byte length of the
image, the image bytes, the CSV_SIZE line, the UTF-8 bytes of the csv
text, and the END line — except that the CSV_SIZE header carries the
character count of the csv text rather than its UTF-8 byte length.  The
two coincide whenever the csv text is ASCII, and then each size header
equals the byte count of the payload that follows it, exactly as claimed. -/
theorem c4_send_data_ascii (tsRepr : String) (image_data : List Nat) (csv_data : String)
    (h : ∀ c ∈ csv_data.data, c.toNat < 128) :
    send_data tsRepr image_data csv_data = send_data_claimed tsRepr image_data csv_data := by
  have hlen : (utf8Encode csv_data).length = csv_data.length := by
    rw [utf8Encode, utf8_len_ascii csv_data.data h]
    rfl
  have hend : PROTOCOL_END_MARKER ++ "\n" = "END\n" := rfl
  unfold send_data send_data_claimed
  rw [hlen, hend]
  simp [utf8Encode_append, List.append_assoc]

/-- C4 witness: for an ASCII csv text the response matches the claimed
shape exactly. -/
theorem c4_send_data_ascii_w :
    (∀ c ∈ "a,b".data, c.toNat < 128) ∧
      send_data "1.0" [5] "a,b" = send_data_claimed "1.0" [5] "a,b" :=
  ⟨by decide, c4_send_data_ascii "1.0" [5] "a,b" (by decide)⟩

/-! Lemmas for the placeholder CSV and the documented layout (claim C6). -/

theorem splitOnChar_nil (sep : Char) : splitOnChar sep [] = [[]] := rfl

theorem splitOnChar_append_sep (sep : Char) (a b : List Char) (h : ∀ c ∈ a, c ≠ sep) :
    splitOnChar sep (a ++ sep :: b) = a :: splitOnChar sep b := by
  induction a with
  | nil => simp [splitOnChar]
  | cons c cs ih =>
    have hc : c ≠ sep := h c (List.mem_cons_self c cs)
    have ih' := ih (fun x hx => h x (List.mem_cons_of_mem c hx))
    simp [splitOnChar, hc, ih']

theorem empty_csv_lines (iso : String) (h : '\n' ∉ iso.data) :
    splitOnChar '\n' (empty_csv iso).data =
      ["# VL53L5CX 8x8 Distance Measurement".data, ("# Timestamp: " ++ iso).data,
       "# Error: LiDAR sensor not available".data, []] := by
  have e : (empty_csv iso).data =
      "# VL53L5CX 8x8 Distance Measurement".data ++ '\n' ::
        (("# Timestamp: " ++ iso).data ++ '\n' ::
          ("# Error: LiDAR sensor not available".data ++ '\n' :: ([] : List Char))) := by
    have d1 : "# VL53L5CX 8x8 Distance Measurement\n# Timestamp: ".data =
        "# VL53L5CX 8x8 Distance Measurement".data ++ '\n' :: "# Timestamp: ".data := by
      decide
    have d2 : "\n# Error: LiDAR sensor not available\n".data =
        '\n' :: ("# Error: LiDAR sensor not available".data ++ '\n' :: ([] : List Char)) := by
      decide
    rw [empty_csv, string_data_append, string_data_append, d1, d2, string_data_append]
    simp [List.append_assoc]
  rw [e]
  rw [splitOnChar_append_sep '\n' _ _ (by decide)]
  rw [splitOnChar_append_sep '\n' _ _ ?side]
  case side =>
    have hts : ∀ c ∈ "# Timestamp: ".data, c ≠ '\n' := by decide
    intro c hc
    rw [string_data_append] at hc
    rcases List.mem_append.mp hc with hc' | hc'
    · exact hts c hc'
    · intro hceq
      exact h (hceq ▸ hc')
  rw [splitOnChar_append_sep '\n' _ _ (by decide), splitOnChar_nil]

theorem empty_csv_not_layout (iso : String) (h : '\n' ∉ iso.data) :
    spec_matrix_layout (empty_csv iso) = false := by
  have e1 : "# VL53L5CX 8x8 Distance Measurement".data =
      '#' :: " VL53L5CX 8x8 Distance Measurement".data := by decide
  have e2 : ("# Timestamp: " ++ iso).data = '#' :: (" Timestamp: ".data ++ iso.data) := by
    rw [string_data_append]
    rfl
  have e3 : "# Error: LiDAR sensor not available".data =
      '#' :: " Error: LiDAR sensor not available".data := by decide
  rw [spec_matrix_layout]
  rw [empty_csv_lines iso h, e1, e2, e3]
  simp [List.dropWhile_cons]

/-- The documents the normal path writes do conform to the documented
layout, so the layout predicate is not vacuous: a fully valid matrix
formatted by format_csv passes it. -/
theorem format_csv_layout_ok : spec_matrix_layout (format_csv mat0 iso0) = true := by decide

/-- C6 counterexample: on a cycle with no depth matrix the store receives
exactly the comment-only placeholder, and that document does not conform
to the documented matrix layout (no blank separator, no header row, no
data rows). -/
theorem c6_placeholder_cex :
    (save_data envAll ts1 iso0 none none fs0).1.csvFile = some (empty_csv iso0) ∧
      spec_matrix_layout (empty_csv iso0) = false := by
  constructor
  · rfl
  · decide

/-- C6 amended: when the depth read fails entirely, save_data still
persists a CSV artifact, namely the comment-only placeholder carrying the
explicit LiDAR-sensor-not-available annotation; its lines are exactly the
three comment lines followed by a trailing empty line, every line being a
comment or empty — but the document does not conform to the documented
matrix layout (blank separator, header row, 8 data rows). -/
theorem c6_placeholder_amended (env : WriteEnv) (ts : PyFloat) (iso : String)
    (img : Option (List Nat)) (fs : FS) (henv : env.csvOk = true) (hiso : '\n' ∉ iso.data) :
    (save_data env ts iso none img fs).1.csvFile = some (empty_csv iso)
    ∧ splitOnChar '\n' (empty_csv iso).data =
        ["# VL53L5CX 8x8 Distance Measurement".data, ("# Timestamp: " ++ iso).data,
         "# Error: LiDAR sensor not available".data, []]
    ∧ (∀ l ∈ splitOnChar '\n' (empty_csv iso).data, l = [] ∨ l.head? = some '#')
    ∧ spec_matrix_layout (empty_csv iso) = false := by
  refine ⟨?_, empty_csv_lines iso hiso, ?_, empty_csv_not_layout iso hiso⟩
  · cases img with
    | none => simp [save_data, save_file_atomic, henv, csv_content]
    | some b => simp [save_data, save_file_atomic, henv, csv_content]
  · intro l hl
    rw [empty_csv_lines iso hiso] at hl
    have e2 : ("# Timestamp: " ++ iso).data = '#' :: (" Timestamp: ".data ++ iso.data) := by
      rw [string_data_append]
      rfl
    simp only [List.mem_cons, List.not_mem_nil, or_false] at hl
    rcases hl with rfl | rfl | rfl | rfl
    · right
      rfl
    · right
      rw [e2]
      rfl
    · right
      rfl
    · left
      rfl

/-- C6 witness: a concrete failed-LiDAR cycle persists the placeholder
and it fails the documented layout. -/
theorem c6_placeholder_amended_w :
    (save_data envAll ts1 iso0 none none fs0).1.csvFile = some (empty_csv iso0) ∧
      spec_matrix_layout (empty_csv iso0) = false :=
  ⟨(c6_placeholder_amended envAll ts1 iso0 none fs0 rfl (by decide)).1,
   (c6_placeholder_amended envAll ts1 iso0 none fs0 rfl (by decide)).2.2.2⟩

/-! Lemmas for the write/read round trip (claim C7): the decimal text
written for a float parses back to the exact same rational value. -/

theorem dropWhile_all_false {p : Char → Bool} (l : List Char) (h : ∀ c ∈ l, p c = false) :
    l.dropWhile p = l := by
  induction l with
  | nil => rfl
  | cons c cs ih =>
    have hc := h c (List.mem_cons_self c cs)
    simp [List.dropWhile_cons, hc, ih (fun x hx => h x (List.mem_cons_of_mem c hx))]

theorem pyStrip_id (l : List Char) (h : ∀ c ∈ l, isPySpace c = false) : pyStrip l = l := by
  rw [pyStrip, dropWhile_all_false l h,
    dropWhile_all_false l.reverse (fun c hc => h c (List.mem_reverse.mp hc)),
    List.reverse_reverse]

theorem digitVal_digitChar (d : Nat) (h : d < 10) : digitVal (digitChar d) = some d := by
  interval_cases d <;> decide

theorem digitChar_not_space (d : Nat) (h : d < 10) : isPySpace (digitChar d) = false := by
  interval_cases d <;> decide

theorem digitChar_ne_dot (d : Nat) (h : d < 10) : digitChar d ≠ '.' := by
  interval_cases d <;> decide

theorem digitChar_ne_dash (d : Nat) (h : d < 10) : digitChar d ≠ '-' := by
  interval_cases d <;> decide

theorem digitsOfChars_renderDigits (ds : List Nat) (h : ∀ d ∈ ds, d < 10) :
    digitsOfChars (renderDigits ds) = some ds := by
  induction ds with
  | nil => rfl
  | cons d ds ih =>
    have hd := h d (List.mem_cons_self d ds)
    have ih' := ih (fun x hx => h x (List.mem_cons_of_mem d hx))
    show digitsOfChars (digitChar d :: renderDigits ds) = some (d :: ds)
    simp only [digitsOfChars, digitVal_digitChar d hd, ih']

theorem natOfDigits_reverse (l : List Nat) : natOfDigits l.reverse = Nat.ofDigits 10 l := by
  induction l with
  | nil => rfl
  | cons d l ih =>
    have e : natOfDigits (l.reverse ++ [d]) = natOfDigits l.reverse * 10 + d := by
      rw [natOfDigits, natOfDigits, List.foldl_append]
      rfl
    rw [List.reverse_cons, e, ih, Nat.ofDigits_cons]
    ring

theorem natOfDigits_natDigits (n : Nat) : natOfDigits (natDigits n) = n := by
  rw [natDigits, natOfDigits_reverse, Nat.ofDigits_digits]

theorem renderNat_spec (n : Nat) :
    ∃ ds, renderNat n = renderDigits ds ∧ (∀ d ∈ ds, d < 10) ∧ natOfDigits ds = n ∧ ds ≠ [] := by
  by_cases h : n = 0
  · subst h
    refine ⟨[0], by decide, by decide, rfl, by decide⟩
  · refine ⟨natDigits n, by rw [renderNat, if_neg h], ?_, natOfDigits_natDigits n, ?_⟩
    · intro d hd
      exact Nat.digits_lt_base (by norm_num) (List.mem_reverse.mp hd)
    · have hd := (@Nat.digits_ne_nil_iff_ne_zero 10 n).mpr h
      rw [natDigits]
      intro hrev
      exact hd (List.reverse_eq_nil_iff.mp hrev)

theorem render_chars (x : PyFloat) (hwf : ∀ d ∈ x.fracDigits, d < 10) :
    ∀ c ∈ (PyFloat.render x).data, isPySpace c = false := by
  obtain ⟨ds, hrn, hds, _, _⟩ := renderNat_spec x.intPart
  intro c hc
  have hc' : c ∈ (if x.neg then ['-'] else []) ++ renderNat x.intPart ++
      '.' :: renderDigits x.fracDigits := hc
  rcases List.mem_append.mp hc' with h1 | h2
  · rcases List.mem_append.mp h1 with h0 | h0
    · cases hxn : x.neg
      · rw [hxn] at h0
        simp at h0
      · rw [hxn] at h0
        simp at h0
        subst h0
        decide
    · rw [hrn, renderDigits] at h0
      obtain ⟨d, hd, rfl⟩ := List.mem_map.mp h0
      exact digitChar_not_space d (hds d hd)
  · rcases List.mem_cons.mp h2 with rfl | h0
    · decide
    · rw [renderDigits] at h0
      obtain ⟨d, hd, rfl⟩ := List.mem_map.mp h0
      exact digitChar_not_space d (hwf d hd)

theorem takeWhile_dropWhile_dot (l₁ l₂ : List Char) (h : ∀ c ∈ l₁, c ≠ '.') :
    (l₁ ++ '.' :: l₂).takeWhile (· != '.') = l₁ ∧
      (l₁ ++ '.' :: l₂).dropWhile (· != '.') = '.' :: l₂ := by
  induction l₁ with
  | nil =>
    constructor
    · simp [List.takeWhile_cons]
    · simp [List.dropWhile_cons]
  | cons c cs ih =>
    have hc : (c != '.') = true := bne_iff_ne.mpr (h c (List.mem_cons_self c cs))
    have ih' := ih (fun x hx => h x (List.mem_cons_of_mem c hx))
    constructor
    · simp [List.takeWhile_cons, hc, ih'.1]
    · simp [List.dropWhile_cons, hc, ih'.2]

theorem pyFloatNN_render_core (ds fd : List Nat) (hne : ds ≠ [])
    (hds : ∀ d ∈ ds, d < 10) (hfd : ∀ d ∈ fd, d < 10) :
    pyFloatNN (renderDigits ds ++ '.' :: renderDigits fd) =
      some ((natOfDigits ds : ℚ) + (natOfDigits fd : ℚ) / (10 : ℚ) ^ fd.length) := by
  have hdot1 : ∀ c ∈ renderDigits ds, c ≠ '.' := by
    intro c hcm
    rw [renderDigits] at hcm
    obtain ⟨d, hd, rfl⟩ := List.mem_map.mp hcm
    exact digitChar_ne_dot d (hds d hd)
  obtain ⟨htake, hdrop⟩ := takeWhile_dropWhile_dot (renderDigits ds) (renderDigits fd) hdot1
  have hemp : (renderDigits ds).isEmpty = false := by
    cases ds with
    | nil => exact absurd rfl hne
    | cons a as => rfl
  have hdot2 : '.' ∉ renderDigits fd := by
    intro hm
    rw [renderDigits] at hm
    obtain ⟨d, hd, heq⟩ := List.mem_map.mp hm
    exact digitChar_ne_dot d (hfd d hd) heq
  have hlen : (renderDigits fd).length = fd.length := by
    rw [renderDigits, List.length_map]
  rw [pyFloatNN]
  simp only [htake, hdrop, hemp, Bool.false_and, hlen,
    digitsOfChars_renderDigits ds hds, digitsOfChars_renderDigits fd hfd, hdot2,
    Bool.false_eq_true, if_false, ite_false]

theorem pyFloat_cons_dash (rest : List Char) :
    pyFloat ('-' :: rest) = (pyFloatNN rest).map (fun q => -q) := by
  simp [pyFloat]

theorem pyFloat_cons_nondash (c : Char) (rest : List Char) (h : c ≠ '-') :
    pyFloat (c :: rest) = pyFloatNN (c :: rest) := by
  have hcond : ¬((c :: rest).head? = some '-') := by
    simp only [List.head?_cons, Option.some.injEq]
    exact h
  rw [pyFloat, if_neg hcond]

theorem pyFloat_render (x : PyFloat) (hwf : ∀ d ∈ x.fracDigits, d < 10) :
    pyFloat (pyStrip (PyFloat.render x).data) = some (PyFloat.toRat x) := by
  obtain ⟨ds, hrn, hds, hval, hne⟩ := renderNat_spec x.intPart
  rw [pyStrip_id _ (render_chars x hwf)]
  have hdata : (PyFloat.render x).data =
      (if x.neg then ['-'] else []) ++ renderNat x.intPart ++
        '.' :: renderDigits x.fracDigits := rfl
  rw [hdata, hrn]
  cases hxn : x.neg with
  | true =>
    have e : ((if (true : Bool) then ['-'] else []) ++ renderDigits ds ++
        '.' :: renderDigits x.fracDigits) =
        '-' :: (renderDigits ds ++ '.' :: renderDigits x.fracDigits) := by
      simp
    rw [e, pyFloat_cons_dash, pyFloatNN_render_core ds x.fracDigits hne hds hwf]
    simp [PyFloat.toRat, hxn, hval]
  | false =>
    obtain ⟨d0, ds', rfl⟩ := List.exists_cons_of_ne_nil hne
    have hd0 : d0 < 10 := hds d0 (List.mem_cons_self d0 ds')
    have e : ((if (false : Bool) then ['-'] else []) ++ renderDigits (d0 :: ds') ++
        '.' :: renderDigits x.fracDigits) =
        digitChar d0 :: (renderDigits ds' ++ '.' :: renderDigits x.fracDigits) := by
      simp [renderDigits]
    have e' : digitChar d0 :: (renderDigits ds' ++ '.' :: renderDigits x.fracDigits) =
        renderDigits (d0 :: ds') ++ '.' :: renderDigits x.fracDigits := by
      simp [renderDigits]
    rw [e, pyFloat_cons_nondash _ _ (digitChar_ne_dash d0 hd0), e',
      pyFloatNN_render_core (d0 :: ds') x.fracDigits (by simp) hds hwf]
    simp [PyFloat.toRat, hxn, hval]

/-- C7 counterexample: the claim fails for a triple whose image is the
empty byte string: the save path skips the image write (the source guards
it with the truthiness of image_data), so reading back returns whatever
image was previously published — here a one-byte image differing from the
written empty one — rather than byte-identical content. -/
theorem c7_roundtrip_cex :
    load_current_data ((save_data envAll ts1 iso0 none (some []) ⟨none, some [1], none⟩).1) =
      some (PyFloat.toRat ts1, [1], empty_csv iso0) ∧ ([1] : List Nat) ≠ [] := by
  constructor
  · have hfs : (save_data envAll ts1 iso0 none (some []) ⟨none, some [1], none⟩).1 =
        ⟨some (PyFloat.render ts1), some [1], some (empty_csv iso0)⟩ := by
      simp [save_data, save_file_atomic, envAll, csv_content]
    rw [hfs]
    have hts : ∀ d ∈ ts1.fracDigits, d < 10 := by decide
    simp [load_current_data, pyFloat_render ts1 hts]
  · decide

/-- C7 amended: for every triple whose image bytes are nonempty, writing
it through save_data and reading it back through load_current_data yields
the byte-identical image, the persisted CSV document, and a timestamp
exactly equal to the written one — the decimal text written by str()
parses back to the very same value. -/
theorem c7_roundtrip (ts : PyFloat) (tsIso : String) (lidar : Option Matrix8)
    (bytes : List Nat) (fs : FS) (hwf : ∀ d ∈ ts.fracDigits, d < 10) (hb : bytes ≠ []) :
    load_current_data ((save_data envAll ts tsIso lidar (some bytes) fs).1) =
      some (PyFloat.toRat ts, bytes, csv_content lidar tsIso) := by
  have hbe : bytes.isEmpty = false := by
    cases bytes with
    | nil => exact absurd rfl hb
    | cons a as => rfl
  have hfs : (save_data envAll ts tsIso lidar (some bytes) fs).1 =
      ⟨some (PyFloat.render ts), some bytes, some (csv_content lidar tsIso)⟩ := by
    simp [save_data, save_file_atomic, envAll, hbe]
  rw [hfs]
  simp [load_current_data, pyFloat_render ts hwf]

/-- C7 witness: the float 3.25 written together with a one-byte image and
the placeholder CSV reads back exactly. -/
theorem c7_roundtrip_w :
    (∀ d ∈ ts0.fracDigits, d < 10) ∧ ([9] : List Nat) ≠ [] ∧
      load_current_data ((save_data envAll ts0 iso0 none (some [9]) fs0).1) =
        some (PyFloat.toRat ts0, [9], csv_content none iso0) :=
  ⟨by decide, by decide, c7_roundtrip ts0 iso0 none [9] fs0 (by decide) (by decide)⟩
